import Mathlib

/-!
Shallow embedding of the gen-ai backend (src/gen-ai-backend/main.py): the
conversation-store items, the supported-model table, the agent tool loop and
the endpoint handlers, together with theorems about turn ordering, persistence
and error handling.

DynamoDB is modelled as an in-memory list of items; a query by partition key
returns the matching items sorted ascending by the range key (timestamp), which
is what the real store does.  Python string comparison is code-point
lexicographic and Python list.sort is stable; both are modelled explicitly
below.  FastAPI HTTPException is modelled as an error value carrying status and
detail; a blanket `except Exception` block that re-raises a 500 is modelled as a
function on the error value, because inside such a block an HTTPException
raised by the body is itself caught and rewrapped.
-/

namespace GenAI

/-- Python truthiness of an optional string: None and the empty string are falsy. -/
def pyTruthy : Option String → Bool
  | none => false
  | some s => !(s == "")

/-- Python `a or b` for an optional string `a`: yields `a` when truthy, else `b`. -/
def pyOrStr : Option String → String → String
  | none, d => d
  | some s, d => if s == "" then d else s

/-- Python str.strip: remove leading and trailing whitespace. -/
def pyStrip (s : String) : String :=
  ⟨((s.data.dropWhile Char.isWhitespace).reverse.dropWhile Char.isWhitespace).reverse⟩

/-- Python slice s[:n]. -/
def pyTake (n : Nat) (s : String) : String := ⟨s.data.take n⟩

/-- Code-point lexicographic comparison of character lists, the order Python
uses to compare strings (and DynamoDB to order string range keys). -/
def charListLe : List Char → List Char → Bool
  | [], _ => true
  | _ :: _, [] => false
  | a :: as, b :: bs => if a < b then true else if b < a then false else charListLe as bs

/-- Python string less-or-equal (code-point lexicographic). -/
def strLe (a b : String) : Bool := charListLe a.data b.data

/-- Insert into a key-sorted list, placing the inserted element before elements
with an equal key: combined with sortByKey below this gives a stable sort, the
inserted element being the earlier one in the original list. -/
def insertByKey {α : Type} (k : α → String) (x : α) : List α → List α
  | [] => [x]
  | y :: ys => if strLe (k x) (k y) then x :: y :: ys else y :: insertByKey k x ys

/-- Stable sort by a string key, modelling Python list.sort(key=...) and the
ascending range-key order of a DynamoDB query. -/
def sortByKey {α : Type} (k : α → String) : List α → List α
  | [] => []
  | x :: xs => insertByKey k x (sortByKey k xs)

/-- One ChatHistory item: partition key conversationId, range key timestamp
(the ordering key: an ISO timestamp suffixed with _user or _ai), plus the
owner, the sender role, the display text and the optional title attribute. -/
structure Item where
  conversationId : String
  timestamp : String
  userId : String
  sender : String
  text : String
  title : Option String := none
deriving DecidableEq, Inhabited

/-- One UsageLogs item, written only when total tokens are positive. -/
structure UsageRecord where
  userId : String
  timestamp : String
  model : String
  prompt_tokens : Nat
  completion_tokens : Nat
  total_tokens : Nat
  user_email : String
deriving DecidableEq

/-- One SharedLinks item. -/
structure ShareLink where
  shareId : String
  conversationId : String
  created_at : String
  ownerId : String
deriving DecidableEq

/-- The de-identified projection returned by the share endpoint: text, sender
and the timestamp attribute of the stored item. -/
structure PublicItem where
  text : String
  sender : String
  timestamp : String
deriving DecidableEq

/-- FastAPI HTTPException payload: status code and detail. -/
structure HErr where
  status : Nat
  detail : String
deriving DecidableEq

/-- str(e) for a FastAPI HTTPException: "{status_code}: {detail}". -/
def httpExcStr (e : HErr) : String := toString e.status ++ ": " ++ e.detail

/-- The blanket handler `except Exception as e: raise HTTPException(500,
detail=f"Database error: {str(e)}")`.  An HTTPException raised inside the try
body is itself an Exception, so it is caught and rewrapped as a 500. -/
def catchAllDb {α : Type} : Except HErr α → Except HErr α
  | .ok v => .ok v
  | .error e => .error ⟨500, "Database error: " ++ httpExcStr e⟩

/-- The blanket handler `except Exception as e: raise HTTPException(500,
detail=str(e))` used by the share endpoints. -/
def catchAllStr {α : Type} : Except HErr α → Except HErr α
  | .ok v => .ok v
  | .error e => .error ⟨500, httpExcStr e⟩

/-- One entry of the SUPPORTED_MODELS table. -/
structure ModelConfig where
  type : String
  name : String
deriving DecidableEq

/-- The SUPPORTED_MODELS dict, accessed with .get (None when absent). -/
def SUPPORTED_MODELS : String → Option ModelConfig
  | "gpt-4o" => some ⟨"openai", "gpt-4o"⟩
  | "gpt-4" => some ⟨"openai", "gpt-4"⟩
  | "gemini-pro" => some ⟨"google", "gemini-1.5-pro-latest"⟩
  | "gemini-2.5-flash" => some ⟨"google", "gemini-1.5-flash"⟩
  | _ => none

/-- A model-issued tool call: identity, function name, and the raw arguments
text (which generate_text_sync never reads). -/
structure ToolCall where
  id : String
  name : String
  arguments : String
deriving DecidableEq

/-- The two Python callables registered in the tool_functions dict. -/
inductive PyTool where
  | get_current_server_time
  | google_search
deriving DecidableEq

/-- The tool_functions dict, accessed with .get. -/
def tool_functions : String → Option PyTool
  | "get_current_server_time" => some .get_current_server_time
  | "google_search" => some .google_search
  | _ => none

/-- Ambient environment for tool execution: the clock reading the server
returns from get_current_server_time. -/
structure ToolEnv where
  now : String
deriving DecidableEq

/-- Result of calling the looked-up callable with zero arguments, exactly as
the dispatch in generate_text_sync does with function_to_call().  The clock
tool takes no parameters and returns the current instant.  google_search
declares a required query parameter, so a zero-argument call raises a
TypeError before the function body runs (the Python message wraps the word
query in quotation marks; they are elided here). -/
def callWithNoArgs (env : ToolEnv) : PyTool → Except String String
  | .get_current_server_time => .ok env.now
  | .google_search => .error "google_search() missing 1 required positional argument: query"

/-- A provider-facing message: the system directive, a prior turn, the current
user content with optional image, the assistant tool-call message appended
back to the context, or a tool-result message keyed by tool_call_id. -/
inductive Message where
  | system (content : String)
  | chat (role : String) (content : String)
  | userMulti (text : String) (image : Option String)
  | assistantCall (content : Option String) (tool_calls : List ToolCall)
  | toolMsg (tool_call_id : String) (name : String) (content : String)
deriving DecidableEq

/-- One iteration of the tool-execution for-loop: look the requested name up in
tool_functions, call it with zero arguments, convert an exception to the
Error-executing-tool text and an unknown name to the Tool-not-found text, and
wrap the outcome as the tool message keyed by the originating tool_call.id. -/
def runToolCall (env : ToolEnv) (tc : ToolCall) : Message :=
  let function_response :=
    match tool_functions tc.name with
    | some f =>
      match callWithNoArgs env f with
      | .ok r => r
      | .error e => "Error executing tool: " ++ e
    | none => "Error: Tool " ++ tc.name ++ " not found."
  .toolMsg tc.id tc.name function_response

/-- The fixed baseline system directive (the Python literal wraps the two tool
names in single quotation marks; those quotation marks are elided here). -/
def base_system_prompt : String :=
  "You are a helpful AI assistant. " ++
  "You have access to a google_search tool that can search the internet for real-time information. " ++
  "You also have a get_current_server_time tool. " ++
  "ALWAYS use the google_search tool if the user asks about current events, news, stock prices, or anything that requires up-to-date knowledge. " ++
  "Do not say you cannot search the internet; just use the tool."

/-- The final system directive: the baseline, concatenated with the stripped
caller-supplied override when that override is truthy and strips to nonempty. -/
def final_system_prompt (systemPrompt : Option String) : String :=
  match systemPrompt with
  | some sp =>
    if pyStrip sp == "" then base_system_prompt
    else base_system_prompt ++ "\n\nUser Instructions: " ++ pyStrip sp
  | none => base_system_prompt

/-- One element of the optional prior-turn history in the request body. -/
structure ChatMessage where
  role : String
  content : String
deriving DecidableEq

/-- The request body of the generate endpoint. -/
structure PromptRequest where
  prompt : Option String := none
  model : String
  conversationId : Option String := none
  history : Option (List ChatMessage) := none
  image : Option String := none
  systemPrompt : Option String := none
deriving DecidableEq

/-- display_prompt = request.prompt or ("Image Received" if request.image else "..."). -/
def display_prompt (req : PromptRequest) : String :=
  pyOrStr req.prompt (if pyTruthy req.image then "Image Received" else "...")

/-- final_prompt_for_llm = request.prompt or ("Describe this image." if request.image else ""). -/
def final_prompt_for_llm (req : PromptRequest) : String :=
  pyOrStr req.prompt (if pyTruthy req.image then "Describe this image." else "")

/-- The messages_for_api list built in the openai branch: the system directive,
the prior turns with the role model rewritten to assistant, then the current
user content with the image attached when truthy. -/
def buildMessages (req : PromptRequest) : List Message :=
  [Message.system (final_system_prompt req.systemPrompt)]
  ++ (match req.history with
      | some h => h.map fun m =>
          Message.chat (if m.role == "model" then "assistant" else m.role) m.content
      | none => [])
  ++ [Message.userMulti (final_prompt_for_llm req)
        (if pyTruthy req.image then req.image else none)]

/-- Token usage counters of one provider response. -/
structure Usage where
  prompt_tokens : Nat
  completion_tokens : Nat
  total_tokens : Nat
deriving DecidableEq

/-- The zero usage_data the endpoint starts from. -/
def zeroUsage : Usage := ⟨0, 0, 0⟩

/-- The response body of the generate endpoint. -/
structure GenOut where
  text : String
  conversationId : String
deriving DecidableEq

/-- One chat-completion response: optional final content, the requested tool
calls, optional usage counters; or a raised provider error. -/
inductive ModelResponse where
  | ok (content : Option String) (tool_calls : List ToolCall) (usage : Option Usage)
  | err (msg : String)
deriving DecidableEq

/-- The model adapter: the chat-completion endpoint, invoked with the message
list, and the single-shot google endpoint, invoked with the prompt string. -/
structure Adapter where
  chatRespond : List Message → ModelResponse
  googleRespond : String → Except String String

/-- The two persistent tables the generate endpoint writes. -/
structure St where
  chat : List Item
  usage : List UsageRecord
deriving DecidableEq

/-- Ambient nondeterminism of one generate request: the two datetime.now
readings, the fresh uuid used when no conversationId is supplied, and the
clock-tool environment. -/
structure GenEnv where
  userTimestamp : String
  aiTimestamp : String
  newConversationId : String
  toolEnv : ToolEnv

/-- The user turn written by the first put_item of generate_text_sync. -/
def mkUserItem (env : GenEnv) (req : PromptRequest) (uid : String) : Item :=
  { conversationId := pyOrStr req.conversationId env.newConversationId
    timestamp := env.userTimestamp ++ "_user"
    userId := uid
    sender := "user"
    text := display_prompt req
    title := none }

/-- The ai turn written by the second put_item of generate_text_sync. -/
def mkAiItem (env : GenEnv) (req : PromptRequest) (uid : String) (text : String) : Item :=
  { conversationId := pyOrStr req.conversationId env.newConversationId
    timestamp := env.aiTimestamp ++ "_ai"
    userId := uid
    sender := "ai"
    text := text
    title := none }

/-- The try block around the provider calls: returns the trace of
chat-completion invocations (the message lists sent, in order) and either the
final pair (ai_response_text, usage_data) or the text of the raised exception.
In the openai branch a first call is made with the tool catalogue; if it
requests tools they are executed, the assistant message and the tool results
are appended, and exactly one second call is made whose content is taken as
final whatever else it carries.  In the google branch a single-shot call is
made and usage stays zero.  If the configured type is neither, no provider
branch runs and the initial empty text and zero usage survive. -/
def adapterAttempt (env : GenEnv) (adapter : Adapter) (cfg : ModelConfig)
    (req : PromptRequest) : List (List Message) × Except String (String × Usage) :=
  if cfg.type == "openai" then
    let msgs := buildMessages req
    match adapter.chatRespond msgs with
    | .err m => ([msgs], .error m)
    | .ok content tool_calls usage =>
      match tool_calls with
      | [] => ([msgs], .ok (content.getD "", usage.getD zeroUsage))
      | tc :: tcs =>
        let msgs2 := msgs ++ [Message.assistantCall content (tc :: tcs)]
                     ++ (tc :: tcs).map (runToolCall env.toolEnv)
        match adapter.chatRespond msgs2 with
        | .err m => ([msgs, msgs2], .error m)
        | .ok c2 _ u2 => ([msgs, msgs2], .ok (c2.getD "", u2.getD zeroUsage))
  else if cfg.type == "google" then
    match adapter.googleRespond (final_prompt_for_llm req) with
    | .ok t => ([], .ok (t, zeroUsage))
    | .error m => ([], .error m)
  else
    ([], .ok ("", zeroUsage))

/-- The generate endpoint: resolve the conversation identity, append the user
turn, look the model up (rejecting unknown models with a 400 after the user
turn is already saved), run the provider interaction (converting a raised
provider error to a 500 without saving an ai turn), then append the ai turn
and, when total tokens are positive, the usage record. -/
def generate_text_sync (env : GenEnv) (adapter : Adapter) (st : St)
    (req : PromptRequest) (uid : String) (email : String) :
    St × List (List Message) × Except HErr GenOut :=
  let conversation_id := pyOrStr req.conversationId env.newConversationId
  let st1 : St := { st with chat := st.chat ++ [mkUserItem env req uid] }
  match SUPPORTED_MODELS req.model with
  | none => (st1, [], .error ⟨400, "Model not supported"⟩)
  | some cfg =>
    match adapterAttempt env adapter cfg req with
    | (trace, .error m) => (st1, trace, .error ⟨500, "Error from AI service: " ++ m⟩)
    | (trace, .ok (ai_response_text, usage_data)) =>
      let aiItem : Item :=
        { conversationId := conversation_id
          timestamp := env.aiTimestamp ++ "_ai"
          userId := uid
          sender := "ai"
          text := ai_response_text
          title := none }
      let st2 : St :=
        { chat := st1.chat ++ [aiItem]
          usage :=
            if usage_data.total_tokens > 0 then
              st1.usage ++ [⟨uid, env.aiTimestamp, req.model, usage_data.prompt_tokens,
                             usage_data.completion_tokens, usage_data.total_tokens, email⟩]
            else st1.usage }
      (st2, trace, .ok ⟨ai_response_text, conversation_id⟩)

/-- The get-messages endpoint: query returns the conversation items in range-key
order (the later items.sort is a no-op on that order); the ownership check on
the first item raises a 403 inside the try block, which the blanket handler
rewraps as a 500. -/
def get_conversation_messages (store : List Item) (conversation_id : String)
    (user_id : Option String) : Except HErr (List Item) :=
  match user_id with
  | none => .error ⟨403, "User ID not found in token"⟩
  | some uid =>
    catchAllDb <|
      match sortByKey (fun i => i.timestamp)
          (store.filter fun i => i.conversationId == conversation_id) with
      | [] => .ok []
      | first :: rest =>
        if first.userId == uid then .ok (first :: rest)
        else .error ⟨403, "Access denied"⟩

/-- The delete endpoint: an empty result is an idempotent success message; the
ownership check raises a 403 inside the try block, rewrapped as a 500 by the
blanket handler; on success every item of the conversation is batch-deleted. -/
def delete_conversation (store : List Item) (conversation_id : String)
    (user_id : Option String) : Except HErr (List Item × String) :=
  match user_id with
  | none => .error ⟨403, "User ID not found in token"⟩
  | some uid =>
    catchAllDb <|
      match sortByKey (fun i => i.timestamp)
          (store.filter fun i => i.conversationId == conversation_id) with
      | [] => .ok (store, "Conversation " ++ conversation_id ++ " not found or already deleted.")
      | first :: _ =>
        if first.userId == uid then
          .ok (store.filter (fun i => !(i.conversationId == conversation_id)),
               "Conversation " ++ conversation_id ++ " deleted successfully.")
        else .error ⟨403, "Access denied"⟩

/-- The DynamoDB update_item of the rename endpoint: SET title on the item with
the given partition and range key, leaving every other item untouched. -/
def updateTitle (store : List Item) (cid ts title : String) : List Item :=
  store.map fun i =>
    if i.conversationId == cid && i.timestamp == ts then { i with title := some title } else i

/-- The rename endpoint: strip the requested title and reject a blank result
with a 400 (raised before the try block, so it is not rewrapped); inside the
try block, a missing conversation raises a 404 and an ownership mismatch a 403,
both rewrapped as 500 by the blanket handler; otherwise the title is written on
the earliest item of the conversation.  There is no upper length check. -/
def rename_conversation (store : List Item) (conversation_id : String)
    (user_id : Option String) (new_title_raw : String) :
    Except HErr (List Item × String) :=
  let new_title := pyStrip new_title_raw
  if new_title == "" then .error ⟨400, "New title cannot be empty"⟩
  else
    catchAllDb <|
      match sortByKey (fun i => i.timestamp)
          (store.filter fun i => i.conversationId == conversation_id) with
      | [] => .error ⟨404, "Conversation not found"⟩
      | first :: _ =>
        if some first.userId == user_id then
          .ok (updateTitle store conversation_id first.timestamp new_title, new_title)
        else .error ⟨403, "Access denied"⟩

/-- Conversation identities in first-occurrence order, as iterating a Python
dict built by insertion produces them. -/
def convIdsInOrder (items : List Item) : List String :=
  items.foldl (fun acc i =>
    if acc.contains i.conversationId then acc else acc ++ [i.conversationId]) []

/-- Title derivation for the listing: the title attribute of the earliest item
when truthy, else the first 50 characters of its text.  (The literal New Chat
default applies only when the text attribute itself is missing, which cannot
happen for items this model writes.) -/
def displayTitle (first : Item) : String :=
  match first.title with
  | some t => if t == "" then pyTake 50 first.text else t
  | none => pyTake 50 first.text

/-- The list-by-owner endpoint: scan the items of the owner, group them by
conversation identity, sort each group by timestamp, derive the display title
from the earliest item, and return the (id, title) pairs sorted by title. -/
def get_conversations (store : List Item) (user_id : Option String) :
    Except HErr (List (String × String)) :=
  match user_id with
  | none => .error ⟨403, "User ID not found in token"⟩
  | some uid =>
    let mine := store.filter fun i => i.userId == uid
    let conversations := (convIdsInOrder mine).map fun cid =>
      match sortByKey (fun i => i.timestamp) (mine.filter fun i => i.conversationId == cid) with
      | [] => (cid, "")
      | first :: _ => (cid, displayTitle first)
    .ok (sortByKey (fun c => c.2) conversations)

/-- The share resolution endpoint: look the opaque id up, read the target
conversation from the store at resolution time, sort it by timestamp, and
project each item to text, sender and its timestamp attribute; a missing link
raises a 404 inside the try block, rewrapped as a 500 by the blanket handler. -/
def get_shared_conversation (links : List ShareLink) (store : List Item)
    (share_id : String) : Except HErr (String × List PublicItem) :=
  catchAllStr <|
    match links.find? (fun l => l.shareId == share_id) with
    | none => .error ⟨404, "Shared link not found or expired"⟩
    | some link_data =>
      let conversation_id := link_data.conversationId
      let items := sortByKey (fun i => i.timestamp)
        (store.filter fun i => i.conversationId == conversation_id)
      .ok (conversation_id, items.map fun i => ⟨i.text, i.sender, i.timestamp⟩)

/-- Adjacent-pairs ascending sortedness by a string key. -/
abbrev KeySorted {α : Type} (k : α → String) (l : List α) : Prop :=
  List.Chain' (fun a b => strLe (k a) (k b) = true) l

/-- A fixed request environment for the concrete scenarios below. -/
def envA : GenEnv :=
  ⟨"2024-01-01T00:00:00+00:00", "2024-01-01T00:00:05+00:00", "conv-1",
   ⟨"2024-01-01T00:00:02+00:00"⟩⟩

/-- An adapter whose every provider call raises. -/
def failingAdapter : Adapter :=
  { chatRespond := fun _ => .err "quota exceeded"
    googleRespond := fun _ => .error "quota exceeded" }

/-- An adapter that answers directly without requesting tools. -/
def stubNoTool : Adapter :=
  { chatRespond := fun _ => .ok (some "direct answer") [] (some ⟨7, 3, 10⟩)
    googleRespond := fun _ => .ok "direct answer" }

/-- True when the context already contains a tool-result message. -/
def hasToolMsg (msgs : List Message) : Bool :=
  msgs.any fun m => match m with | .toolMsg _ _ _ => true | _ => false

/-- An adapter stub that requests the clock tool on a context without tool
results and returns the final text once the context carries tool results. -/
def stubClockTool : Adapter :=
  { chatRespond := fun msgs =>
      if hasToolMsg msgs then
        .ok (some "It is midnight UTC on Jan 1, 2024.") [] (some ⟨10, 5, 15⟩)
      else
        .ok none [⟨"call_1", "get_current_server_time", ""⟩] none
    googleRespond := fun _ => .ok "g" }

/-- An adapter that requests the clock tool on a fresh context and raises on
the call whose context carries tool results. -/
def stubToolThenErr : Adapter :=
  { chatRespond := fun msgs =>
      if hasToolMsg msgs then .err "boom"
      else .ok none [⟨"call_1", "get_current_server_time", ""⟩] none
    googleRespond := fun _ => .ok "g" }

/-- A plain text request against gpt-4o. -/
def reqHello : PromptRequest := { prompt := some "hello", model := "gpt-4o" }

/-- A plain text request against the google-profile model gemini-pro. -/
def reqGemini : PromptRequest := { prompt := some "hi", model := "gemini-pro" }

/-- The clock-scenario request against gpt-4o. -/
def reqTime : PromptRequest := { prompt := some "What time is it?", model := "gpt-4o" }

/-- A request with an empty prompt and no image. -/
def reqEmpty : PromptRequest := { prompt := some "", model := "gpt-4o" }

/-- A request naming a model outside the supported table. -/
def reqBadModel : PromptRequest := { prompt := some "hi", model := "llama-3" }

/-- A request with an empty prompt and an attached image. -/
def reqImage : PromptRequest :=
  { prompt := some "", model := "gpt-4o", image := some "data:image/png;base64,AAA" }

/-- A fixed timestamp instant. -/
def t0 : String := "2024-01-01T00:00:00+00:00"

/-- A user turn at instant t0 in conversation c1 owned by A. -/
def itemU : Item := ⟨"c1", t0 ++ "_user", "A", "user", "hi", none⟩

/-- An ai turn at the same instant t0 in conversation c1. -/
def itemA : Item := ⟨"c1", t0 ++ "_ai", "A", "ai", "yo", none⟩

/-- A google_search tool call carrying its required query argument. -/
def searchCall : ToolCall :=
  ⟨"call_1", "google_search", "\x7b\"query\": \"Apple stock price\"\x7d"⟩

/-- A 101-character title. -/
def title101 : String := ⟨List.replicate 101 'a'⟩

/-- A one-turn conversation store for the rename scenarios. -/
def storeC7 : List Item := [⟨"c1", t0 ++ "_user", "A", "user", "hello there", none⟩]

/-- A share link for conversation c1. -/
def linkS1 : ShareLink := ⟨"s1", "c1", t0, "A"⟩

/-! Helper lemmas about the string order and the stable sort. -/

theorem charListLe_total (as bs : List Char) :
    charListLe as bs = true ∨ charListLe bs as = true := by
  induction as generalizing bs with
  | nil => left; rfl
  | cons a as ih =>
    cases bs with
    | nil => right; rfl
    | cons b bs =>
      by_cases h1 : a < b
      · left; simp [charListLe, h1]
      · by_cases h2 : b < a
        · right; simp [charListLe, h2]
        · rcases ih bs with h | h
          · left; simp [charListLe, h1, h2, h]
          · right; simp [charListLe, h1, h2, h]

theorem strLe_total (a b : String) : strLe a b = true ∨ strLe b a = true :=
  charListLe_total a.data b.data

theorem charListLe_append_same (xs as bs : List Char) :
    charListLe (xs ++ as) (xs ++ bs) = charListLe as bs := by
  induction xs with
  | nil => rfl
  | cons x xs ih => simpa [charListLe, lt_irrefl] using ih

theorem strLe_append_same (t a b : String) :
    strLe (t ++ a) (t ++ b) = strLe a b := by
  cases t with
  | mk td =>
    cases a with
    | mk ad =>
      cases b with
      | mk bd => exact charListLe_append_same td ad bd

theorem keySorted_insertByKey {α : Type} (k : α → String) (x : α) :
    ∀ l : List α, KeySorted k l → KeySorted k (insertByKey k x l) := by
  intro l
  induction l with
  | nil => intro _; simp [insertByKey]
  | cons y ys ih =>
    intro h
    by_cases hxy : strLe (k x) (k y) = true
    · unfold insertByKey
      rw [if_pos hxy]
      exact List.chain'_cons.mpr ⟨hxy, h⟩
    · have hyx : strLe (k y) (k x) = true := by
        rcases strLe_total (k x) (k y) with h1 | h1
        · exact absurd h1 hxy
        · exact h1
      unfold insertByKey
      rw [if_neg hxy]
      cases ys with
      | nil => simp [insertByKey, hyx]
      | cons z zs =>
        have hh := List.chain'_cons.mp h
        have htail : KeySorted k (insertByKey k x (z :: zs)) := ih hh.2
        by_cases hxz : strLe (k x) (k z) = true
        · have e2 : insertByKey k x (z :: zs) = x :: z :: zs := by
            simp [insertByKey, hxz]
          rw [e2]
          exact List.chain'_cons.mpr ⟨hyx, List.chain'_cons.mpr ⟨hxz, hh.2⟩⟩
        · have e2 : insertByKey k x (z :: zs) = z :: insertByKey k x zs := by
            simp [insertByKey, hxz]
          rw [e2]
          rw [e2] at htail
          exact List.chain'_cons.mpr ⟨hh.1, htail⟩

theorem keySorted_sortByKey {α : Type} (k : α → String) :
    ∀ l : List α, KeySorted k (sortByKey k l) := by
  intro l
  induction l with
  | nil => simp [sortByKey]
  | cons x xs ih => exact keySorted_insertByKey k x _ ih

theorem get_conversation_messages_ok (store : List Item) (cid uid : String)
    (items : List Item)
    (h : get_conversation_messages store cid (some uid) = .ok items) :
    items = sortByKey (fun i => i.timestamp)
      (store.filter fun i => i.conversationId == cid) := by
  unfold get_conversation_messages at h
  cases hs : sortByKey (fun i => i.timestamp)
      (store.filter fun i => i.conversationId == cid) with
  | nil =>
    rw [hs] at h
    simpa [catchAllDb] using h.symm
  | cons first rest =>
    rw [hs] at h
    by_cases hu : first.userId == uid
    · simp [catchAllDb, hu] at h
      exact h.symm
    · simp [catchAllDb, hu] at h

theorem strLe_ai_user (t : String) :
    strLe (t ++ "_ai") (t ++ "_user") = true
    ∧ strLe (t ++ "_user") (t ++ "_ai") = false := by
  constructor
  · rw [strLe_append_same]; decide
  · rw [strLe_append_same]; decide

theorem generate_chat_shape (env : GenEnv) (adapter : Adapter) (st : St)
    (req : PromptRequest) (uid email : String) :
    ∃ rest, (generate_text_sync env adapter st req uid email).1.chat
      = st.chat ++ mkUserItem env req uid :: rest := by
  cases hm : SUPPORTED_MODELS req.model with
  | none =>
    refine ⟨[], ?_⟩
    simp [generate_text_sync, hm]
  | some cfg =>
    cases ha : adapterAttempt env adapter cfg req with
    | mk trace r =>
      cases r with
      | error m =>
        refine ⟨[], ?_⟩
        simp [generate_text_sync, hm, ha]
      | ok p =>
        obtain ⟨txt, ud⟩ := p
        refine ⟨[{ conversationId := pyOrStr req.conversationId env.newConversationId,
                   timestamp := env.aiTimestamp ++ "_ai", userId := uid, sender := "ai",
                   text := txt, title := none }], ?_⟩
        simp [generate_text_sync, hm, ha]

/-! Claim theorems. -/

/-- C10: a request naming a model outside the supported table is rejected with
a 400 Model-not-supported error, but only after the user turn has already been
appended: the rejection is not side-effect-free, and it leaves a user turn with
no answering ai turn in the conversation. -/
theorem unsupported_model_rejected_after_user_turn (env : GenEnv) (adapter : Adapter)
    (st : St) (req : PromptRequest) (uid email : String)
    (h : SUPPORTED_MODELS req.model = none) :
    generate_text_sync env adapter st req uid email
      = ({ st with chat := st.chat ++ [mkUserItem env req uid] }, [],
         .error ⟨400, "Model not supported"⟩) := by
  simp [generate_text_sync, h]

/-- C10 witness: the concrete unsupported model llama-3 is rejected with the
user turn already persisted and no ai turn. -/
theorem unsupported_model_rejected_after_user_turn_witness :
    generate_text_sync envA stubNoTool ⟨[], []⟩ reqBadModel "user-A" "a@example.com"
      = ({ chat := [mkUserItem envA reqBadModel "user-A"], usage := [] }, [],
         .error ⟨400, "Model not supported"⟩) := by
  have h := unsupported_model_rejected_after_user_turn envA stubNoTool ⟨[], []⟩
    reqBadModel "user-A" "a@example.com" rfl
  simpa using h

/-- C5: a get-messages or delete request by the non-owner principal B never
succeeds, but the 403 Access denied raised inside the try block is caught by
the blanket except handler and resurfaces as a 500 Database error, so the
reported error class is not the access-denied one. -/
theorem cross_principal_access_wrapped_as_500 :
    get_conversation_messages [itemU] "c1" (some "B")
        = .error ⟨500, "Database error: 403: Access denied"⟩
    ∧ delete_conversation [itemU] "c1" (some "B")
        = .error ⟨500, "Database error: 403: Access denied"⟩ := by
  constructor <;> rfl

/-- C4: the ExecutingTools dispatch never reads the requested arguments and
invokes the mapped callable with zero arguments, so a google_search call that
carries its query argument yields a TypeError text instead of a search result,
while the zero-argument clock call succeeds; each tool message is keyed by the
originating call identity. -/
theorem search_query_argument_never_passed :
    runToolCall ⟨"2024-01-01T00:00:02+00:00"⟩ searchCall
      = Message.toolMsg "call_1" "google_search"
          "Error executing tool: google_search() missing 1 required positional argument: query"
    ∧ runToolCall ⟨"2024-01-01T00:00:02+00:00"⟩ ⟨"call_2", "get_current_server_time", ""⟩
      = Message.toolMsg "call_2" "get_current_server_time" "2024-01-01T00:00:02+00:00" := by
  constructor <;> rfl

/-- C3: counterexample.  The suffix _ai sorts strictly before _user, so when
the user turn and its answer carry the same timestamp instant the user turn
does not sort before its answer: list-by-conversation returns the ai turn as
the first element. -/
theorem same_instant_ai_turn_sorts_first :
    get_conversation_messages [itemU, itemA] "c1" (some "A") = .ok [itemA, itemU]
    ∧ strLe (t0 ++ "_user") (t0 ++ "_ai") = false := by
  constructor <;> rfl

/-- C3 (amended): list-by-conversation returns turns sorted ascending by the
ordering key; the suffix breaks a same-instant tie in favour of the ai turn
(the ai key sorts strictly before the user key at the same instant); and for a
conversation produced by one generation request whose user key sorts no later
than its ai key — as holds whenever the ai timestamp is strictly later — the
first returned element is the user turn. -/
theorem turn_ordering_corrected :
    (∀ (store : List Item) (cid uid : String) (items : List Item),
        get_conversation_messages store cid (some uid) = .ok items →
        KeySorted (fun i => i.timestamp) items)
    ∧ (∀ t : String, strLe (t ++ "_ai") (t ++ "_user") = true
        ∧ strLe (t ++ "_user") (t ++ "_ai") = false)
    ∧ (∀ (env : GenEnv) (adapter : Adapter) (req : PromptRequest) (uid email : String)
        (c : Option String) (u : Option Usage) (cfg : ModelConfig),
        SUPPORTED_MODELS req.model = some cfg →
        cfg.type = "openai" →
        adapter.chatRespond (buildMessages req) = .ok c [] u →
        strLe (env.userTimestamp ++ "_user") (env.aiTimestamp ++ "_ai") = true →
        ((get_conversation_messages
            (generate_text_sync env adapter ⟨[], []⟩ req uid email).1.chat
            (pyOrStr req.conversationId env.newConversationId) (some uid)).map
            (fun items => items.map fun i => i.sender)) = .ok ["user", "ai"]) := by
  refine ⟨?_, ?_, ?_⟩
  · intro store cid uid items h
    rw [get_conversation_messages_ok store cid uid items h]
    exact keySorted_sortByKey _ _
  · exact strLe_ai_user
  · intro env adapter req uid email c u cfg hm hty hresp hkeys
    simp [generate_text_sync, adapterAttempt, hm, hty, hresp,
      get_conversation_messages, catchAllDb, mkUserItem, sortByKey, insertByKey, hkeys,
      Except.map]

/-- C3 witness: the three amended clauses at concrete inputs. -/
theorem turn_ordering_corrected_witness :
    KeySorted (fun i : Item => i.timestamp) [itemU]
    ∧ (strLe (t0 ++ "_ai") (t0 ++ "_user") = true
        ∧ strLe (t0 ++ "_user") (t0 ++ "_ai") = false)
    ∧ ((get_conversation_messages
          (generate_text_sync envA stubNoTool ⟨[], []⟩ reqHello "user-A" "a@example.com").1.chat
          (pyOrStr reqHello.conversationId envA.newConversationId) (some "user-A")).map
          (fun items => items.map fun i => i.sender)) = .ok ["user", "ai"] := by
  refine ⟨?_, ?_, ?_⟩
  · exact turn_ordering_corrected.1 [itemU] "c1" "A" [itemU] rfl
  · exact turn_ordering_corrected.2.1 t0
  · exact turn_ordering_corrected.2.2 envA stubNoTool reqHello "user-A" "a@example.com"
      (some "direct answer") (some ⟨7, 3, 10⟩) ⟨"openai", "gpt-4o"⟩ rfl rfl rfl (by decide)

/-- C9: counterexample.  The projected message keeps the stored timestamp
attribute verbatim as its time field; that attribute is the internal ordering
key, role suffix included, so the internal ordering key is not stripped from
the projection. -/
theorem share_ordering_key_not_stripped :
    get_shared_conversation [linkS1] [itemU] "s1"
      = .ok ("c1", [⟨"hi", "user", t0 ++ "_user"⟩])
    ∧ (PublicItem.mk "hi" "user" (t0 ++ "_user")).timestamp = itemU.timestamp := by
  constructor <;> rfl

/-- C9 (amended): resolving a share link returns the full conversation as it
exists in the store at resolution time (a live view), sorted ascending by
ordering key, each turn projected to text, sender and the stored timestamp
attribute; the owner identity is stripped, but the timestamp attribute is the
internal ordering key and is exposed rather than stripped. -/
theorem share_resolution_live_projection (links : List ShareLink) (store : List Item)
    (sid : String) (link : ShareLink)
    (h : links.find? (fun l => l.shareId == sid) = some link) :
    get_shared_conversation links store sid
      = .ok (link.conversationId,
          (sortByKey (fun i => i.timestamp)
            (store.filter fun i => i.conversationId == link.conversationId)).map
            fun i => ⟨i.text, i.sender, i.timestamp⟩) := by
  simp [get_shared_conversation, h, catchAllStr]

/-- C9 witness: resolving the concrete link s1 over a one-turn store. -/
theorem share_resolution_live_projection_witness :
    get_shared_conversation [linkS1] [itemU] "s1"
      = .ok (linkS1.conversationId,
          (sortByKey (fun i : Item => i.timestamp)
            ([itemU].filter fun i => i.conversationId == linkS1.conversationId)).map
            fun i => ⟨i.text, i.sender, i.timestamp⟩) :=
  share_resolution_live_projection [linkS1] [itemU] "s1" linkS1 rfl

theorem pyOrStr_of_falsy (p : Option String) (d : String) (hp : pyTruthy p = false) :
    pyOrStr p d = d := by
  cases p with
  | none => rfl
  | some s =>
    simp [pyTruthy] at hp
    simp [pyOrStr, hp]

/-- C1: counterexample.  When the adapter raises, generate_text_sync fails with
a 500 and persists no ai turn: on a provider error the turn is not durably
recorded as claimed, and no user-facing explanatory ai answer is stored. -/
theorem provider_error_drops_ai_turn :
    (generate_text_sync envA failingAdapter ⟨[], []⟩ reqHello "user-A" "a@example.com").1.chat
        = [mkUserItem envA reqHello "user-A"]
    ∧ ((generate_text_sync envA failingAdapter ⟨[], []⟩ reqHello "user-A" "a@example.com").1.chat.filter
        fun i => i.sender == "ai") = []
    ∧ (generate_text_sync envA failingAdapter ⟨[], []⟩ reqHello "user-A" "a@example.com").2.2
        = .error ⟨500, "Error from AI service: quota exceeded"⟩ := by
  refine ⟨rfl, rfl, rfl⟩

/-- C1 (amended): for every generation request on a supported model, the user
turn is appended first, for every adapter and every outcome; whenever the
provider interaction raises, the request fails with a 500 Error-from-AI-service
and only the user turn is persisted (no ai turn); whenever the provider
interaction concludes successfully, the ai turn with the final text is appended
after the user turn.  The last six clauses show every concrete provider outcome
is covered: a first chat-call error, a post-tool second chat-call error, a
no-tool chat answer, a tool-round chat answer, a google single-shot error, and
a google single-shot answer each map to the corresponding try-block outcome. -/
theorem user_turn_first_ai_turn_only_on_success (env : GenEnv) (adapter : Adapter)
    (st : St) (req : PromptRequest) (uid email : String) (cfg : ModelConfig)
    (hm : SUPPORTED_MODELS req.model = some cfg) :
    (∀ a : Adapter, ∃ rest, (generate_text_sync env a st req uid email).1.chat
        = st.chat ++ mkUserItem env req uid :: rest)
    ∧ (∀ m, (adapterAttempt env adapter cfg req).2 = .error m →
        (generate_text_sync env adapter st req uid email).1.chat
            = st.chat ++ [mkUserItem env req uid]
        ∧ (generate_text_sync env adapter st req uid email).2.2
            = .error ⟨500, "Error from AI service: " ++ m⟩)
    ∧ (∀ txt ud, (adapterAttempt env adapter cfg req).2 = .ok (txt, ud) →
        (generate_text_sync env adapter st req uid email).1.chat
          = st.chat ++ [mkUserItem env req uid, mkAiItem env req uid txt]
        ∧ (generate_text_sync env adapter st req uid email).2.2
          = .ok ⟨txt, pyOrStr req.conversationId env.newConversationId⟩)
    ∧ (cfg.type = "openai" → ∀ m,
        adapter.chatRespond (buildMessages req) = .err m →
        (adapterAttempt env adapter cfg req).2 = .error m)
    ∧ (cfg.type = "openai" → ∀ c tc tcs u1 m,
        adapter.chatRespond (buildMessages req) = .ok c (tc :: tcs) u1 →
        adapter.chatRespond (buildMessages req ++ [Message.assistantCall c (tc :: tcs)]
          ++ (tc :: tcs).map (runToolCall env.toolEnv)) = .err m →
        (adapterAttempt env adapter cfg req).2 = .error m)
    ∧ (cfg.type = "openai" → ∀ c u,
        adapter.chatRespond (buildMessages req) = .ok c [] u →
        (adapterAttempt env adapter cfg req).2 = .ok (c.getD "", u.getD zeroUsage))
    ∧ (cfg.type = "openai" → ∀ c tc tcs u1 c2 tcs2 u2,
        adapter.chatRespond (buildMessages req) = .ok c (tc :: tcs) u1 →
        adapter.chatRespond (buildMessages req ++ [Message.assistantCall c (tc :: tcs)]
          ++ (tc :: tcs).map (runToolCall env.toolEnv)) = .ok c2 tcs2 u2 →
        (adapterAttempt env adapter cfg req).2 = .ok (c2.getD "", u2.getD zeroUsage))
    ∧ (cfg.type = "google" → ∀ m,
        adapter.googleRespond (final_prompt_for_llm req) = .error m →
        (adapterAttempt env adapter cfg req).2 = .error m)
    ∧ (cfg.type = "google" → ∀ t,
        adapter.googleRespond (final_prompt_for_llm req) = .ok t →
        (adapterAttempt env adapter cfg req).2 = .ok (t, zeroUsage)) := by
  refine ⟨fun a => generate_chat_shape env a st req uid email,
    ?_, ?_, ?_, ?_, ?_, ?_, ?_, ?_⟩
  · intro m h
    cases ha : adapterAttempt env adapter cfg req with
    | mk trace r =>
      rw [ha] at h
      have hr : r = .error m := h
      subst hr
      exact ⟨by simp [generate_text_sync, hm, ha], by simp [generate_text_sync, hm, ha]⟩
  · intro txt ud h
    cases ha : adapterAttempt env adapter cfg req with
    | mk trace r =>
      rw [ha] at h
      have hr : r = .ok (txt, ud) := h
      subst hr
      exact ⟨by simp [generate_text_sync, hm, ha, mkAiItem],
             by simp [generate_text_sync, hm, ha]⟩
  · intro hty m h
    simp [adapterAttempt, hty, h]
  · intro hty c tc tcs u1 m h1 h2
    have h2x : adapter.chatRespond (buildMessages req
        ++ Message.assistantCall c (tc :: tcs)
           :: runToolCall env.toolEnv tc :: List.map (runToolCall env.toolEnv) tcs)
        = ModelResponse.err m := by
      simpa using h2
    simp [adapterAttempt, hty, h1, h2x]
  · intro hty c u h
    simp [adapterAttempt, hty, h]
  · intro hty c tc tcs u1 c2 tcs2 u2 h1 h2
    have h2x : adapter.chatRespond (buildMessages req
        ++ Message.assistantCall c (tc :: tcs)
           :: runToolCall env.toolEnv tc :: List.map (runToolCall env.toolEnv) tcs)
        = ModelResponse.ok c2 tcs2 u2 := by
      simpa using h2
    simp [adapterAttempt, hty, h1, h2x]
  · intro hty m h
    simp [adapterAttempt, hty, h]
  · intro hty t h
    simp [adapterAttempt, hty, h]

/-- C1 witness: the amended clauses at concrete requests, covering a first-call
error, a no-tool success, a post-tool second-call error, a google error and a
google success. -/
theorem user_turn_first_ai_turn_only_on_success_witness :
    (∃ rest, (generate_text_sync envA failingAdapter ⟨[], []⟩ reqHello "user-A" "a@example.com").1.chat
        = (⟨[], []⟩ : St).chat ++ mkUserItem envA reqHello "user-A" :: rest)
    ∧ ((generate_text_sync envA failingAdapter ⟨[], []⟩ reqHello "user-A" "a@example.com").1.chat
          = (⟨[], []⟩ : St).chat ++ [mkUserItem envA reqHello "user-A"]
        ∧ (generate_text_sync envA failingAdapter ⟨[], []⟩ reqHello "user-A" "a@example.com").2.2
          = .error ⟨500, "Error from AI service: " ++ "quota exceeded"⟩)
    ∧ ((generate_text_sync envA stubNoTool ⟨[], []⟩ reqHello "user-A" "a@example.com").1.chat
          = (⟨[], []⟩ : St).chat ++ [mkUserItem envA reqHello "user-A",
              mkAiItem envA reqHello "user-A" "direct answer"]
        ∧ (generate_text_sync envA stubNoTool ⟨[], []⟩ reqHello "user-A" "a@example.com").2.2
          = .ok ⟨"direct answer", pyOrStr reqHello.conversationId envA.newConversationId⟩)
    ∧ ((generate_text_sync envA stubToolThenErr ⟨[], []⟩ reqTime "user-A" "a@example.com").1.chat
          = (⟨[], []⟩ : St).chat ++ [mkUserItem envA reqTime "user-A"]
        ∧ (generate_text_sync envA stubToolThenErr ⟨[], []⟩ reqTime "user-A" "a@example.com").2.2
          = .error ⟨500, "Error from AI service: " ++ "boom"⟩)
    ∧ ((generate_text_sync envA failingAdapter ⟨[], []⟩ reqGemini "user-A" "a@example.com").1.chat
          = (⟨[], []⟩ : St).chat ++ [mkUserItem envA reqGemini "user-A"]
        ∧ (generate_text_sync envA failingAdapter ⟨[], []⟩ reqGemini "user-A" "a@example.com").2.2
          = .error ⟨500, "Error from AI service: " ++ "quota exceeded"⟩)
    ∧ (generate_text_sync envA stubNoTool ⟨[], []⟩ reqGemini "user-A" "a@example.com").1.chat
        = (⟨[], []⟩ : St).chat ++ [mkUserItem envA reqGemini "user-A",
            mkAiItem envA reqGemini "user-A" "direct answer"] := by
  refine ⟨?_, ?_, ?_, ?_, ?_, ?_⟩
  · exact (user_turn_first_ai_turn_only_on_success envA failingAdapter ⟨[], []⟩ reqHello
      "user-A" "a@example.com" ⟨"openai", "gpt-4o"⟩ rfl).1 failingAdapter
  · exact (user_turn_first_ai_turn_only_on_success envA failingAdapter ⟨[], []⟩ reqHello
      "user-A" "a@example.com" ⟨"openai", "gpt-4o"⟩ rfl).2.1 "quota exceeded" rfl
  · exact (user_turn_first_ai_turn_only_on_success envA stubNoTool ⟨[], []⟩ reqHello
      "user-A" "a@example.com" ⟨"openai", "gpt-4o"⟩ rfl).2.2.1 "direct answer" ⟨7, 3, 10⟩ rfl
  · exact (user_turn_first_ai_turn_only_on_success envA stubToolThenErr ⟨[], []⟩ reqTime
      "user-A" "a@example.com" ⟨"openai", "gpt-4o"⟩ rfl).2.1 "boom" rfl
  · exact (user_turn_first_ai_turn_only_on_success envA failingAdapter ⟨[], []⟩ reqGemini
      "user-A" "a@example.com" ⟨"google", "gemini-1.5-pro-latest"⟩ rfl).2.1 "quota exceeded" rfl
  · exact ((user_turn_first_ai_turn_only_on_success envA stubNoTool ⟨[], []⟩ reqGemini
      "user-A" "a@example.com" ⟨"google", "gemini-1.5-pro-latest"⟩ rfl).2.2.1 "direct answer"
      zeroUsage rfl).1

/-- C2: in the chat-completion profile the tool round runs at most once: when
the first adapter call requests tools and the second answers, exactly two chat
calls are made, exactly one user turn and one ai turn are appended, and the
persisted ai text equals the second call text (whatever tool calls the second
response may still carry), so tool intermediate output never leaks into the
persisted ai turn. -/
theorem single_tool_round (env : GenEnv) (adapter : Adapter) (st : St)
    (req : PromptRequest) (uid email : String) (cfg : ModelConfig)
    (hm : SUPPORTED_MODELS req.model = some cfg) (hty : cfg.type = "openai")
    (c1 : Option String) (tc : ToolCall) (tcs : List ToolCall) (u1 : Option Usage)
    (h1 : adapter.chatRespond (buildMessages req) = .ok c1 (tc :: tcs) u1)
    (c2 : Option String) (calls2 : List ToolCall) (u2 : Option Usage)
    (h2 : adapter.chatRespond (buildMessages req
            ++ [Message.assistantCall c1 (tc :: tcs)]
            ++ (tc :: tcs).map (runToolCall env.toolEnv)) = .ok c2 calls2 u2) :
    (generate_text_sync env adapter st req uid email).2.1.length = 2
    ∧ (generate_text_sync env adapter st req uid email).1.chat
        = st.chat ++ [mkUserItem env req uid,
            { conversationId := pyOrStr req.conversationId env.newConversationId
              timestamp := env.aiTimestamp ++ "_ai"
              userId := uid
              sender := "ai"
              text := c2.getD ""
              title := none }]
    ∧ (generate_text_sync env adapter st req uid email).2.2
        = .ok ⟨c2.getD "", pyOrStr req.conversationId env.newConversationId⟩ := by
  have h2x : adapter.chatRespond (buildMessages req
      ++ Message.assistantCall c1 (tc :: tcs)
         :: runToolCall env.toolEnv tc :: List.map (runToolCall env.toolEnv) tcs)
      = ModelResponse.ok c2 calls2 u2 := by
    simpa using h2
  refine ⟨?_, ?_, ?_⟩ <;>
    simp [generate_text_sync, adapterAttempt, hm, hty, h1, h2x]

/-- C2 witness: the clock-tool scenario at a concrete stub adapter. -/
theorem single_tool_round_witness :
    (generate_text_sync envA stubClockTool ⟨[], []⟩ reqTime "user-A" "a@example.com").2.1.length = 2
    ∧ (generate_text_sync envA stubClockTool ⟨[], []⟩ reqTime "user-A" "a@example.com").1.chat
        = (⟨[], []⟩ : St).chat ++ [mkUserItem envA reqTime "user-A",
            { conversationId := pyOrStr reqTime.conversationId envA.newConversationId
              timestamp := envA.aiTimestamp ++ "_ai"
              userId := "user-A"
              sender := "ai"
              text := (some "It is midnight UTC on Jan 1, 2024.").getD ""
              title := none }]
    ∧ (generate_text_sync envA stubClockTool ⟨[], []⟩ reqTime "user-A" "a@example.com").2.2
        = .ok ⟨(some "It is midnight UTC on Jan 1, 2024.").getD "",
               pyOrStr reqTime.conversationId envA.newConversationId⟩ :=
  single_tool_round envA stubClockTool ⟨[], []⟩ reqTime "user-A" "a@example.com"
    ⟨"openai", "gpt-4o"⟩ rfl rfl none ⟨"call_1", "get_current_server_time", ""⟩ [] none rfl
    (some "It is midnight UTC on Jan 1, 2024.") [] (some ⟨10, 5, 15⟩) rfl

/-- C6: counterexample.  A request with an empty prompt and no image is not
rejected as a validation error: the user turn is persisted, the adapter is
invoked once, and the request succeeds, so the rejection-with-no-side-effects
claim is false on this input. -/
theorem empty_prompt_not_rejected :
    (generate_text_sync envA stubNoTool ⟨[], []⟩ reqEmpty "user-A" "a@example.com").2.2
        = .ok ⟨"direct answer", "conv-1"⟩
    ∧ (generate_text_sync envA stubNoTool ⟨[], []⟩ reqEmpty "user-A" "a@example.com").1.chat.length = 2
    ∧ (generate_text_sync envA stubNoTool ⟨[], []⟩ reqEmpty "user-A" "a@example.com").2.1.length = 1 := by
  refine ⟨rfl, rfl, rfl⟩

/-- C6 (amended): a generation request with an empty (or missing) prompt and no
image is not rejected and is not side-effect-free: the user turn is persisted
with the placeholder text ... and the chat adapter is invoked. -/
theorem empty_prompt_accepted_with_placeholder (env : GenEnv) (adapter : Adapter)
    (st : St) (req : PromptRequest) (uid email : String) (cfg : ModelConfig)
    (hp : pyTruthy req.prompt = false) (hi : req.image = none)
    (hm : SUPPORTED_MODELS req.model = some cfg) (hty : cfg.type = "openai") :
    display_prompt req = "..."
    ∧ (∃ rest, (generate_text_sync env adapter st req uid email).1.chat
        = st.chat ++ mkUserItem env req uid :: rest)
    ∧ (generate_text_sync env adapter st req uid email).2.1 ≠ [] := by
  refine ⟨?_, generate_chat_shape env adapter st req uid email, ?_⟩
  · simp [display_prompt, pyOrStr_of_falsy _ _ hp, hi, pyTruthy]
  · cases hr : adapter.chatRespond (buildMessages req) with
    | err m => simp [generate_text_sync, adapterAttempt, hm, hty, hr]
    | ok c tcs u =>
      cases tcs with
      | nil => simp [generate_text_sync, adapterAttempt, hm, hty, hr]
      | cons tc tcs =>
        cases hr2 : adapter.chatRespond (buildMessages req
            ++ Message.assistantCall c (tc :: tcs)
               :: runToolCall env.toolEnv tc :: List.map (runToolCall env.toolEnv) tcs) with
        | err m => simp [generate_text_sync, adapterAttempt, hm, hty, hr, hr2]
        | ok c2 tcs2 u2 => simp [generate_text_sync, adapterAttempt, hm, hty, hr, hr2]

/-- C6 witness: the amended clauses at the concrete empty-prompt request. -/
theorem empty_prompt_accepted_with_placeholder_witness :
    display_prompt reqEmpty = "..."
    ∧ (∃ rest, (generate_text_sync envA stubNoTool ⟨[], []⟩ reqEmpty "user-A" "a@example.com").1.chat
        = (⟨[], []⟩ : St).chat ++ mkUserItem envA reqEmpty "user-A" :: rest)
    ∧ (generate_text_sync envA stubNoTool ⟨[], []⟩ reqEmpty "user-A" "a@example.com").2.1 ≠ [] :=
  empty_prompt_accepted_with_placeholder envA stubNoTool ⟨[], []⟩ reqEmpty
    "user-A" "a@example.com" ⟨"openai", "gpt-4o"⟩ rfl rfl rfl rfl

/-- C7: counterexample.  rename_conversation performs no length check: a
101-character title is accepted and written, against the claim that an
over-length title is rejected. -/
theorem overlength_title_accepted :
    title101.length = 101
    ∧ rename_conversation storeC7 "c1" (some "A") title101
        = .ok (updateTitle storeC7 "c1" (t0 ++ "_user") title101, title101) := by
  refine ⟨rfl, rfl⟩

/-- C7 (amended): rename rejects a blank (empty after stripping) title with a
400; a successful rename writes the stripped title on the earliest turn of the
conversation only; there is no upper length bound, so a 101-character title is
accepted; and a valid rename is visible in the next list-by-owner call as the
new title. -/
theorem rename_earliest_only_no_length_bound :
    (∀ (store : List Item) (cid : String) (uidOpt : Option String) (raw : String),
        pyStrip raw = "" →
        rename_conversation store cid uidOpt raw
          = .error ⟨400, "New title cannot be empty"⟩)
    ∧ (∀ (store : List Item) (cid : String) (uidOpt : Option String) (raw : String)
        (out : List Item × String),
        rename_conversation store cid uidOpt raw = .ok out →
        ∃ first rest,
          sortByKey (fun i => i.timestamp)
              (store.filter fun i => i.conversationId == cid) = first :: rest
          ∧ out = (updateTitle store cid first.timestamp (pyStrip raw), pyStrip raw))
    ∧ rename_conversation storeC7 "c1" (some "A") title101
        = .ok (updateTitle storeC7 "c1" (t0 ++ "_user") title101, title101)
    ∧ get_conversations (updateTitle storeC7 "c1" (t0 ++ "_user") "My Chat") (some "A")
        = .ok [("c1", "My Chat")] := by
  refine ⟨?_, ?_, rfl, rfl⟩
  · intro store cid uidOpt raw h
    simp [rename_conversation, h]
  · intro store cid uidOpt raw out h
    unfold rename_conversation at h
    by_cases hb : pyStrip raw == ""
    · rw [if_pos hb] at h
      simp at h
    · rw [if_neg hb] at h
      cases hs : sortByKey (fun i => i.timestamp)
          (store.filter fun i => i.conversationId == cid) with
      | nil =>
        rw [hs] at h
        simp [catchAllDb] at h
      | cons first rest =>
        rw [hs] at h
        by_cases hu : some first.userId == uidOpt
        · simp [catchAllDb, hu] at h
          exact ⟨first, rest, rfl, h.symm⟩
        · simp [catchAllDb, hu] at h

/-- C7 witness: the blank rejection and the earliest-turn update shape at
concrete inputs. -/
theorem rename_earliest_only_no_length_bound_witness :
    rename_conversation storeC7 "c1" (some "A") "   "
        = .error ⟨400, "New title cannot be empty"⟩
    ∧ (∃ first rest,
        sortByKey (fun i : Item => i.timestamp)
            (storeC7.filter fun i => i.conversationId == "c1") = first :: rest
        ∧ (updateTitle storeC7 "c1" (t0 ++ "_user") (pyStrip "My Chat"), pyStrip "My Chat")
            = (updateTitle storeC7 "c1" first.timestamp (pyStrip "My Chat"),
               pyStrip "My Chat")) := by
  refine ⟨?_, ?_⟩
  · exact rename_earliest_only_no_length_bound.1 storeC7 "c1" (some "A") "   " rfl
  · exact rename_earliest_only_no_length_bound.2.1 storeC7 "c1" (some "A") "My Chat"
      (updateTitle storeC7 "c1" (t0 ++ "_user") (pyStrip "My Chat"), pyStrip "My Chat") rfl

/-- C8: the persisted user-turn display text is never empty: it is the raw
prompt when a nonempty prompt is given, the placeholder Image-Received when no
truthy prompt accompanies a truthy image, and the placeholder ... when neither
is present; the user turn appended by generate_text_sync carries exactly that
text. -/
theorem user_turn_text_never_empty (env : GenEnv) (adapter : Adapter) (st : St)
    (req : PromptRequest) (uid email : String) :
    (∃ rest, (generate_text_sync env adapter st req uid email).1.chat
        = st.chat ++ mkUserItem env req uid :: rest)
    ∧ (mkUserItem env req uid).text = display_prompt req
    ∧ (∀ p, req.prompt = some p → p ≠ "" → display_prompt req = p)
    ∧ (pyTruthy req.prompt = false → pyTruthy req.image = true →
        display_prompt req = "Image Received")
    ∧ (pyTruthy req.prompt = false → pyTruthy req.image = false →
        display_prompt req = "...")
    ∧ display_prompt req ≠ "" := by
  refine ⟨generate_chat_shape env adapter st req uid email, rfl, ?_, ?_, ?_, ?_⟩
  · intro p hp hne
    simp [display_prompt, hp, pyOrStr, hne]
  · intro hp hi
    simp [display_prompt, pyOrStr_of_falsy _ _ hp, hi]
  · intro hp hi
    simp [display_prompt, pyOrStr_of_falsy _ _ hp, hi]
  · cases hq : req.prompt with
    | none =>
      simp only [display_prompt, hq, pyOrStr]
      split <;> decide
    | some s =>
      simp only [display_prompt, hq, pyOrStr]
      by_cases hs : s == ""
      · rw [if_pos hs]
        split <;> decide
      · rw [if_neg hs]
        simpa using hs

/-- C8 witness: the display-text clauses at concrete requests (nonempty prompt,
image with empty prompt, neither). -/
theorem user_turn_text_never_empty_witness :
    (∃ rest, (generate_text_sync envA stubNoTool ⟨[], []⟩ reqHello "user-A" "a@example.com").1.chat
        = (⟨[], []⟩ : St).chat ++ mkUserItem envA reqHello "user-A" :: rest)
    ∧ (mkUserItem envA reqHello "user-A").text = display_prompt reqHello
    ∧ display_prompt reqHello = "hello"
    ∧ display_prompt reqImage = "Image Received"
    ∧ display_prompt reqEmpty = "..."
    ∧ display_prompt reqEmpty ≠ "" := by
  have h1 := user_turn_text_never_empty envA stubNoTool ⟨[], []⟩ reqHello "user-A" "a@example.com"
  have h2 := user_turn_text_never_empty envA stubNoTool ⟨[], []⟩ reqImage "user-A" "a@example.com"
  have h3 := user_turn_text_never_empty envA stubNoTool ⟨[], []⟩ reqEmpty "user-A" "a@example.com"
  exact ⟨h1.1, h1.2.1, h1.2.2.1 "hello" rfl (by decide),
    h2.2.2.2.1 rfl rfl, h3.2.2.2.2.1 rfl rfl, h3.2.2.2.2.2⟩

end GenAI
